import Mathlib

/-!
Shallow embedding of the clothing-business CRUD backend (src/main.py).

The relational store is modelled as lists of rows, one list per table.
Each handler becomes a pure function from the store (plus its request
parameters) to a new store and an HTTP status code.  Monetary REAL
columns are modelled as `Rat`, DATE columns as an abstract `Nat` day
encoding, and SQLite row ids as `Nat`.

Failure points that in Python are exceptions (the forced failure of the
audit insert inside the stock-adjustment transaction) are modelled by an
explicit boolean flag, and the `try ... except Exception` block of
`update_stock` is modelled by an inner `Except`-returning function whose
errors the outer function converts to a 500 response, exactly as the
blanket `except` clause does.
-/

namespace Clothing

/-- A row of the Customers table (and the pydantic `Customer` model). -/
structure Customer where
  customerID : Nat
  firstName : String
  lastName : String
  email : String
  phoneNumber : String
deriving Repr, DecidableEq

/-- A row of the Products table (and the pydantic `Product` model). -/
structure Product where
  productID : Nat
  name : String
  description : String
  price : Rat
  stock : Int
deriving Repr, DecidableEq

/-- A row of the Orders table. -/
structure Order where
  orderID : Nat
  customerID : Nat
  orderDate : Nat
  totalAmount : Rat
  shippingAddress : String
  city : String
  state : String
  zipCode : String
  country : String
  status : String
  paymentStatus : String
deriving Repr, DecidableEq

/-- A row of the OrderDetails table. -/
structure OrderDetail where
  orderDetailID : Nat
  orderID : Nat
  productID : Nat
  quantity : Int
  price : Rat
deriving Repr, DecidableEq

/-- A row of the Employees table. -/
structure Employee where
  employeeID : Nat
  firstName : String
  lastName : String
  email : String
  password : String
  role : String
deriving Repr, DecidableEq

/-- A row of the Shipping table. -/
structure Shipping where
  shippingID : Nat
  orderID : Nat
  employeeID : Nat
  shippingDate : Nat
  shippingMethod : String
  trackingNumber : String
deriving Repr, DecidableEq

/-- A row of the InventoryLog table. -/
structure InventoryLog where
  logID : Nat
  productID : Nat
  employeeID : Nat
  changeType : String
  quantityChange : Int
  changeDate : Nat
deriving Repr, DecidableEq

/-- A row of the Payments table. -/
structure Payment where
  paymentID : Nat
  orderID : Nat
  amount : Rat
  paymentDate : Nat
  paymentMethod : String
deriving Repr, DecidableEq

/-- The whole relational store: one list of rows per table, plus the
AUTOINCREMENT counters the handlers read through `cursor.lastrowid`. -/
structure Store where
  customers : List Customer
  products : List Product
  orders : List Order
  orderDetails : List OrderDetail
  employees : List Employee
  shippings : List Shipping
  inventoryLog : List InventoryLog
  payments : List Payment
  nextCustomerID : Nat
  nextProductID : Nat
  nextEmployeeID : Nat
  nextLogID : Nat
deriving Repr, DecidableEq

/-- `400 <= status < 500`, the HTTP client-error range. -/
def isClientError (status : Nat) : Bool :=
  decide (400 ≤ status) && decide (status < 500)

/-- The pydantic validation of the `Product` request model
(`Name` 1..100 chars, `Description` 1..500 chars, `Price > 0`,
`Stock >= 0`), enforced by FastAPI before a product handler runs. -/
def productModelValid (p : Product) : Bool :=
  decide (1 ≤ p.name.length) && decide (p.name.length ≤ 100) &&
  decide (1 ≤ p.description.length) && decide (p.description.length ≤ 500) &&
  decide (0 < p.price) && decide (0 ≤ p.stock)

/-- Does `needle` occur at the start of `hay`? (helper for SQL LIKE). -/
def begWith : List Char → List Char → Bool
  | [], _ => true
  | _ :: _, [] => false
  | a :: as, b :: bs => a == b && begWith as bs

/-- Does `needle` occur contiguously anywhere inside `hay`? -/
def hasInside (needle : List Char) : List Char → Bool
  | [] => begWith needle []
  | c :: rest => begWith needle (c :: rest) || hasInside needle rest

/-- `column LIKE '%pat%'`: substring containment (SQLite folds ASCII
case in LIKE; case folding is abstracted away here, which no claim
about row counts depends on). -/
def likeContains (pat s : String) : Bool :=
  hasInside pat.data s.data

/-- `authenticate` (main.py:84-90): look up the employee row whose
`Email` equals the supplied username; succeed when such a row exists and
its stored `Password` equals (`secrets.compare_digest`) the supplied
password, otherwise reject with HTTP 401. -/
def authenticate (username pw : String) (s : Store) : Except Nat Employee :=
  match s.employees.find? (fun e => e.email == username) with
  | some e => if e.password == pw then .ok e else .error 401
  | none => .error 401

/-- `create_customer` (main.py:209-225): insert a customer row; a
uniqueness violation on `Email` raises `sqlite3.IntegrityError`, which
this handler catches and converts to HTTP 400. -/
def create_customer (c : Customer) (s : Store) : Store × Nat :=
  if s.customers.any (fun x => x.email == c.email) then
    (s, 400)
  else
    ({ s with
        customers := s.customers ++ [{ c with customerID := s.nextCustomerID }],
        nextCustomerID := s.nextCustomerID + 1 }, 200)

/-- `read_customers` (main.py:227-245): optional substring search over
first name, last name and email, then `LIMIT limit OFFSET skip`.
(`if search:` treats the empty string as no filter.) -/
def read_customers (skip limit : Nat) (search : Option String) (s : Store) :
    List Customer :=
  let rows :=
    match search with
    | some q =>
        if q.isEmpty then s.customers
        else s.customers.filter (fun c =>
          likeContains q c.firstName || likeContains q c.lastName ||
          likeContains q c.email)
    | none => s.customers
  (rows.drop skip).take limit

/-- `create_product` (main.py:248-259): FastAPI rejects a body failing
the pydantic `Product` validation with HTTP 422 before the handler runs;
otherwise the row is inserted unconditionally. -/
def create_product (p : Product) (s : Store) : Store × Nat :=
  if productModelValid p then
    ({ s with
        products := s.products ++ [{ p with productID := s.nextProductID }],
        nextProductID := s.nextProductID + 1 }, 200)
  else
    (s, 422)

/-- `read_products` (main.py:261-279): optional substring search over
name and description, then `LIMIT limit OFFSET skip`. -/
def read_products (skip limit : Nat) (search : Option String) (s : Store) :
    List Product :=
  let rows :=
    match search with
    | some q =>
        if q.isEmpty then s.products
        else s.products.filter (fun p =>
          likeContains q p.name || likeContains q p.description)
    | none => s.products
  (rows.drop skip).take limit

/-- `update_product` (main.py:291-304): pydantic validation first
(422 on failure), then `UPDATE ... WHERE ProductID = ?`; zero rows
affected is reported as HTTP 404. -/
def update_product (pid : Nat) (p : Product) (s : Store) : Store × Nat :=
  if productModelValid p then
    let rowcount := (s.products.filter (fun x => x.productID == pid)).length
    if rowcount = 0 then (s, 404)
    else
      ({ s with
          products := s.products.map (fun x =>
            if x.productID == pid then { p with productID := x.productID }
            else x) }, 200)
  else
    (s, 422)

/-- `delete_product` (main.py:306-316): `DELETE ... WHERE ProductID = ?`;
zero rows affected is reported as HTTP 404 with no commit. -/
def delete_product (pid : Nat) (s : Store) : Store × Nat :=
  let remaining := s.products.filter (fun p => !(p.productID == pid))
  if remaining.length = s.products.length then (s, 404)
  else ({ s with products := remaining }, 200)

/-- `delete_order` (main.py:377-387). -/
def delete_order (oid : Nat) (s : Store) : Store × Nat :=
  let remaining := s.orders.filter (fun o => !(o.orderID == oid))
  if remaining.length = s.orders.length then (s, 404)
  else ({ s with orders := remaining }, 200)

/-- `delete_order_detail` (main.py:446-456). -/
def delete_order_detail (odid : Nat) (s : Store) : Store × Nat :=
  let remaining := s.orderDetails.filter (fun d => !(d.orderDetailID == odid))
  if remaining.length = s.orderDetails.length then (s, 404)
  else ({ s with orderDetails := remaining }, 200)

/-- `delete_employee` (main.py:508-518). -/
def delete_employee (eid : Nat) (s : Store) : Store × Nat :=
  let remaining := s.employees.filter (fun e => !(e.employeeID == eid))
  if remaining.length = s.employees.length then (s, 404)
  else ({ s with employees := remaining }, 200)

/-- `delete_shipping` (main.py:577-587). -/
def delete_shipping (sid : Nat) (s : Store) : Store × Nat :=
  let remaining := s.shippings.filter (fun r => !(r.shippingID == sid))
  if remaining.length = s.shippings.length then (s, 404)
  else ({ s with shippings := remaining }, 200)

/-- `delete_inventory_log` (main.py:646-656). -/
def delete_inventory_log (lid : Nat) (s : Store) : Store × Nat :=
  let remaining := s.inventoryLog.filter (fun l => !(l.logID == lid))
  if remaining.length = s.inventoryLog.length then (s, 404)
  else ({ s with inventoryLog := remaining }, 200)

/-- `delete_payment` (main.py:715-725). -/
def delete_payment (pid : Nat) (s : Store) : Store × Nat :=
  let remaining := s.payments.filter (fun p => !(p.paymentID == pid))
  if remaining.length = s.payments.length then (s, 404)
  else ({ s with payments := remaining }, 200)

/-- `create_employee` (main.py:459-470): inserts the employee row with
NO `IntegrityError` handler, so a uniqueness violation on `Email`
propagates out of the handler and FastAPI answers HTTP 500. -/
def create_employee (e : Employee) (s : Store) : Store × Nat :=
  if s.employees.any (fun x => x.email == e.email) then
    (s, 500)
  else
    ({ s with
        employees := s.employees ++ [{ e with employeeID := s.nextEmployeeID }],
        nextEmployeeID := s.nextEmployeeID + 1 }, 200)

/-- The payload of `/dashboard`. -/
structure DashboardData where
  total_customers : Nat
  total_products : Nat
  total_orders : Nat
  total_revenue : Rat
deriving Repr, DecidableEq

/-- `SELECT SUM(TotalAmount) FROM Orders`: SQL SUM over an empty table
is NULL. -/
def sqlSumTotalAmount (orders : List Order) : Option Rat :=
  match orders with
  | [] => none
  | _ => some ((orders.map Order.totalAmount).sum)

/-- Python `x or 0`: NULL (None) and the falsy value 0.0 both become 0. -/
def pyOrZero (x : Option Rat) : Rat :=
  match x with
  | none => 0
  | some v => if v = 0 then 0 else v

/-- `get_dashboard_data` (main.py:727-740): four aggregate queries. -/
def get_dashboard_data (s : Store) : DashboardData :=
  { total_customers := s.customers.length
    total_products := s.products.length
    total_orders := s.orders.length
    total_revenue := pyOrZero (sqlSumTotalAmount s.orders) }

/-- Effect of `UPDATE Products SET Stock = Stock + qc WHERE ProductID = pid`
on one row. -/
def stockUpdateRow (pid : Nat) (qc : Int) (p : Product) : Product :=
  if p.productID == pid then { p with stock := p.stock + qc } else p

/-- The InventoryLog row inserted by the stock-adjustment transaction. -/
def mkAdjustmentEntry (logID pid empID : Nat) (qc : Int) (today : Nat) :
    InventoryLog :=
  { logID := logID, productID := pid, employeeID := empID,
    changeType := "Adjustment", quantityChange := qc, changeDate := today }

/-- Body of the `try` block of `update_stock` (main.py:785-795):
BEGIN; UPDATE the stock counter; if zero rows were affected raise
`HTTPException(404)` (an exception like any other as far as the
enclosing `except` is concerned); insert the audit row (its forced
failure is the `auditInsertFails` flag); COMMIT.  An error here means
the transaction was not committed. -/
def update_stock_attempt (pid : Nat) (qc : Int) (emp : Employee)
    (today : Nat) (auditInsertFails : Bool) (s : Store) :
    Except String Store :=
  let rowcount := (s.products.filter (fun p => p.productID == pid)).length
  if rowcount = 0 then
    .error "404: Product not found"
  else if auditInsertFails then
    .error "audit insert failed"
  else
    .ok { s with
      products := s.products.map (stockUpdateRow pid qc),
      inventoryLog := s.inventoryLog ++
        [mkAdjustmentEntry s.nextLogID pid emp.employeeID qc today],
      nextLogID := s.nextLogID + 1 }

/-- `update_stock` (main.py:777-801): run the transaction body; ANY
exception — including the `HTTPException(404)` raised for a missing
product — is caught by `except Exception`, the transaction is rolled
back (the store is unchanged), and HTTP 500 is returned. -/
def update_stock (pid : Nat) (qc : Int) (emp : Employee) (today : Nat)
    (auditInsertFails : Bool) (s : Store) : Store × Nat :=
  match update_stock_attempt pid qc emp today auditInsertFails s with
  | .ok s' => (s', 200)
  | .error _ => (s, 500)

/-- Stock of the first product row with the given id, as
`SELECT Stock FROM Products WHERE ProductID = ?` / `fetchone` sees it. -/
def getStock (pid : Nat) (l : List Product) : Option Int :=
  (l.find? (fun p => p.productID == pid)).map Product.stock

/-- The `Depends(authenticate)` wiring of `create_customer`: the
credential check runs before the handler body. -/
def route_create_customer (username pw : String) (c : Customer)
    (s : Store) : Store × Nat :=
  match authenticate username pw s with
  | .ok _ => create_customer c s
  | .error code => (s, code)

/-- The `Depends(authenticate)` wiring of `update_stock`. -/
def route_update_stock (username pw : String) (pid : Nat) (qc : Int)
    (today : Nat) (auditInsertFails : Bool) (s : Store) : Store × Nat :=
  match authenticate username pw s with
  | .ok emp => update_stock pid qc emp today auditInsertFails s
  | .error code => (s, code)

/-- The default admin row that `create_default_admin` (main.py:193-206)
inserts into an empty Employees table. -/
def sampleEmployee : Employee :=
  { employeeID := 1, firstName := "Admin", lastName := "User",
    email := "admin@example.com", password := "adminpassword", role := "Admin" }

def sampleCustomer : Customer :=
  { customerID := 1, firstName := "Jane", lastName := "Doe",
    email := "jane@example.com", phoneNumber := "+12345678901" }

def sampleProduct : Product :=
  { productID := 1, name := "Shirt", description := "A cotton shirt",
    price := 20, stock := 50 }

/-- A small concrete store used by the witnesses. -/
def baseStore : Store :=
  { customers := [sampleCustomer], products := [sampleProduct],
    orders := [], orderDetails := [], employees := [sampleEmployee],
    shippings := [], inventoryLog := [], payments := [],
    nextCustomerID := 2, nextProductID := 2, nextEmployeeID := 2,
    nextLogID := 1 }

def emptyStore : Store :=
  { customers := [], products := [], orders := [], orderDetails := [],
    employees := [], shippings := [], inventoryLog := [], payments := [],
    nextCustomerID := 1, nextProductID := 1, nextEmployeeID := 1,
    nextLogID := 1 }

/-- A second employee whose email collides with `sampleEmployee`. -/
def dupEmployee : Employee :=
  { employeeID := 0, firstName := "Eve", lastName := "Clone",
    email := "admin@example.com", password := "password123", role := "Staff" }

/-- A second customer whose email collides with `sampleCustomer`. -/
def dupCustomer : Customer :=
  { customerID := 0, firstName := "Janet", lastName := "Doe",
    email := "jane@example.com", phoneNumber := "+19876543210" }

def lowStockProduct : Product :=
  { productID := 1, name := "Shirt", description := "A cotton shirt",
    price := 20, stock := 5 }

def lowStockStore : Store := { baseStore with products := [lowStockProduct] }

/-- C5: every entity-delete handler invoked with an identifier absent
from its table returns HTTP 404 and leaves the store (hence the table's
row count and every row) unchanged. -/
theorem delete_missing_id_leaves_store_unchanged :
    (∀ (pid : Nat) (s : Store), (∀ p ∈ s.products, p.productID ≠ pid) →
        delete_product pid s = (s, 404))
    ∧ (∀ (oid : Nat) (s : Store), (∀ o ∈ s.orders, o.orderID ≠ oid) →
        delete_order oid s = (s, 404))
    ∧ (∀ (odid : Nat) (s : Store), (∀ d ∈ s.orderDetails, d.orderDetailID ≠ odid) →
        delete_order_detail odid s = (s, 404))
    ∧ (∀ (eid : Nat) (s : Store), (∀ e ∈ s.employees, e.employeeID ≠ eid) →
        delete_employee eid s = (s, 404))
    ∧ (∀ (sid : Nat) (s : Store), (∀ r ∈ s.shippings, r.shippingID ≠ sid) →
        delete_shipping sid s = (s, 404))
    ∧ (∀ (lid : Nat) (s : Store), (∀ l ∈ s.inventoryLog, l.logID ≠ lid) →
        delete_inventory_log lid s = (s, 404))
    ∧ (∀ (pyid : Nat) (s : Store), (∀ p ∈ s.payments, p.paymentID ≠ pyid) →
        delete_payment pyid s = (s, 404)) := by
  refine ⟨?_, ?_, ?_, ?_, ?_, ?_, ?_⟩ <;>
    (intro i s h
     first
       | (unfold delete_product; rw [List.filter_eq_self.mpr (by intro a ha; simpa using h a ha)]; simp)
       | (unfold delete_order; rw [List.filter_eq_self.mpr (by intro a ha; simpa using h a ha)]; simp)
       | (unfold delete_order_detail; rw [List.filter_eq_self.mpr (by intro a ha; simpa using h a ha)]; simp)
       | (unfold delete_employee; rw [List.filter_eq_self.mpr (by intro a ha; simpa using h a ha)]; simp)
       | (unfold delete_shipping; rw [List.filter_eq_self.mpr (by intro a ha; simpa using h a ha)]; simp)
       | (unfold delete_inventory_log; rw [List.filter_eq_self.mpr (by intro a ha; simpa using h a ha)]; simp)
       | (unfold delete_payment; rw [List.filter_eq_self.mpr (by intro a ha; simpa using h a ha)]; simp))

/-- C5 witness: deleting id 99999 from the concrete `baseStore` (whose
ids are all 1 or absent) answers 404 for each entity and leaves the
store untouched. -/
theorem delete_missing_id_leaves_store_unchanged_witness :
    delete_product 99999 baseStore = (baseStore, 404)
    ∧ delete_order 99999 baseStore = (baseStore, 404)
    ∧ delete_order_detail 99999 baseStore = (baseStore, 404)
    ∧ delete_employee 99999 baseStore = (baseStore, 404)
    ∧ delete_shipping 99999 baseStore = (baseStore, 404)
    ∧ delete_inventory_log 99999 baseStore = (baseStore, 404)
    ∧ delete_payment 99999 baseStore = (baseStore, 404) :=
  ⟨delete_missing_id_leaves_store_unchanged.1 99999 baseStore (by decide),
   delete_missing_id_leaves_store_unchanged.2.1 99999 baseStore (by decide),
   delete_missing_id_leaves_store_unchanged.2.2.1 99999 baseStore (by decide),
   delete_missing_id_leaves_store_unchanged.2.2.2.1 99999 baseStore (by decide),
   delete_missing_id_leaves_store_unchanged.2.2.2.2.1 99999 baseStore (by decide),
   delete_missing_id_leaves_store_unchanged.2.2.2.2.2.1 99999 baseStore (by decide),
   delete_missing_id_leaves_store_unchanged.2.2.2.2.2.2 99999 baseStore (by decide)⟩

/-- C6: with no search filter, the customer and product list handlers
return exactly min(limit, rowCount - skip) rows (truncated subtraction
realises max(0, rowCount - skip)); in particular 10 rows for skip=0,
limit=10 over 25 rows, and 5 rows for skip=20, limit=10. -/
theorem read_lists_return_min_limit_rows :
    ∀ (skip limit : Nat) (s : Store),
      (read_customers skip limit none s).length
          = min limit (s.customers.length - skip)
      ∧ (read_products skip limit none s).length
          = min limit (s.products.length - skip) := by
  intro skip limit s
  constructor <;>
    simp [read_customers, read_products, List.length_take, List.length_drop]

/-- C8: for any skip, any search filter and any limit the interface
accepts (1 ≤ limit ≤ 100), the customer and product list handlers
return at most `limit` rows, hence never more than 100. -/
theorem read_lists_never_exceed_limit :
    ∀ (skip limit : Nat) (search : Option String) (s : Store),
      1 ≤ limit → limit ≤ 100 →
      (read_customers skip limit search s).length ≤ limit
      ∧ (read_customers skip limit search s).length ≤ 100
      ∧ (read_products skip limit search s).length ≤ limit
      ∧ (read_products skip limit search s).length ≤ 100 := by
  intro skip limit search s h1 h100
  have hc : (read_customers skip limit search s).length ≤ limit := by
    unfold read_customers
    exact List.length_take_le ..
  have hp : (read_products skip limit search s).length ≤ limit := by
    unfold read_products
    exact List.length_take_le ..
  exact ⟨hc, le_trans hc h100, hp, le_trans hp h100⟩

/-- C8 witness: at skip=0, limit=10, no filter, on the concrete store. -/
theorem read_lists_never_exceed_limit_witness :
    (read_customers 0 10 none baseStore).length ≤ 10
    ∧ (read_customers 0 10 none baseStore).length ≤ 100
    ∧ (read_products 0 10 none baseStore).length ≤ 10
    ∧ (read_products 0 10 none baseStore).length ≤ 100 :=
  read_lists_never_exceed_limit 0 10 none baseStore (by decide) (by decide)

/-- C9: the dashboard reports the exact row counts of the Customers,
Products and Orders tables, and reports total_revenue = 0 (not NULL)
when the Orders table is empty. -/
theorem dashboard_counts_and_empty_revenue :
    ∀ s : Store,
      (s.orders = [] → (get_dashboard_data s).total_revenue = 0)
      ∧ (get_dashboard_data s).total_customers = s.customers.length
      ∧ (get_dashboard_data s).total_products = s.products.length
      ∧ (get_dashboard_data s).total_orders = s.orders.length := by
  intro s
  refine ⟨?_, rfl, rfl, rfl⟩
  intro h
  simp [get_dashboard_data, sqlSumTotalAmount, h, pyOrZero]

/-- C9 witness: on the empty store the revenue is 0 and all counts are 0. -/
theorem dashboard_counts_and_empty_revenue_witness :
    (get_dashboard_data emptyStore).total_revenue = 0
    ∧ (get_dashboard_data emptyStore).total_customers = emptyStore.customers.length
    ∧ (get_dashboard_data emptyStore).total_products = emptyStore.products.length
    ∧ (get_dashboard_data emptyStore).total_orders = emptyStore.orders.length :=
  ⟨(dashboard_counts_and_empty_revenue emptyStore).1 rfl,
   (dashboard_counts_and_empty_revenue emptyStore).2.1,
   (dashboard_counts_and_empty_revenue emptyStore).2.2.1,
   (dashboard_counts_and_empty_revenue emptyStore).2.2.2⟩

/-- C4 counterexample: `create_employee` has no IntegrityError handler,
so inserting a second employee with the already-stored email
"admin@example.com" is answered with HTTP 500 — a server error, not the
conflict client error the claim requires for every entity-create
operation.  (The row count is still unchanged.) -/
theorem create_employee_duplicate_not_client_error :
    create_employee dupEmployee baseStore = (baseStore, 500)
    ∧ isClientError 500 = false := by decide

/-- C4 amended: a duplicate-email create leaves the table unchanged in
both handlers, but only `create_customer` reports it as a 400 conflict
client error; `create_employee` lets the uniqueness violation escape as
an HTTP 500 server error. -/
theorem create_duplicate_row_count_unchanged :
    (∀ (c : Customer) (s : Store),
        s.customers.any (fun x => x.email == c.email) = true →
        create_customer c s = (s, 400))
    ∧ (∀ (e : Employee) (s : Store),
        s.employees.any (fun x => x.email == e.email) = true →
        create_employee e s = (s, 500)) := by
  constructor
  · intro c s h
    simp [create_customer, h]
  · intro e s h
    simp [create_employee, h]

/-- C4 witness: the duplicate customer is refused with 400 and the
duplicate employee with 500, each store unchanged. -/
theorem create_duplicate_row_count_unchanged_witness :
    create_customer dupCustomer baseStore = (baseStore, 400)
    ∧ create_employee dupEmployee baseStore = (baseStore, 500) :=
  ⟨create_duplicate_row_count_unchanged.1 dupCustomer baseStore (by decide),
   create_duplicate_row_count_unchanged.2 dupEmployee baseStore (by decide)⟩

/-- C1: the stock-adjustment transaction is all-or-nothing: every run
either leaves the store exactly as it was and answers 500, or answers
200 with the stock update applied AND exactly the one audit row
appended; the 200 case is only reachable when the audit insert did not
fail, so a forced audit failure always rolls the stock mutation back,
and the audit entry exists iff the stock mutation committed. -/
theorem update_stock_all_or_nothing :
    ∀ (pid : Nat) (qc : Int) (emp : Employee) (today : Nat)
      (auditInsertFails : Bool) (s : Store),
      ((update_stock pid qc emp today auditInsertFails s).1 = s
        ∧ (update_stock pid qc emp today auditInsertFails s).2 = 500)
      ∨ ((update_stock pid qc emp today auditInsertFails s).2 = 200
        ∧ auditInsertFails = false
        ∧ (update_stock pid qc emp today auditInsertFails s).1.products
            = s.products.map (stockUpdateRow pid qc)
        ∧ (update_stock pid qc emp today auditInsertFails s).1.inventoryLog
            = s.inventoryLog ++
                [mkAdjustmentEntry s.nextLogID pid emp.employeeID qc today]) := by
  intro pid qc emp today fail s
  by_cases hrc : (s.products.filter (fun p => p.productID == pid)).length = 0
  · left
    simp [update_stock, update_stock_attempt, hrc]
  · cases fail
    · right
      simp [update_stock, update_stock_attempt, hrc]
    · left
      simp [update_stock, update_stock_attempt, hrc]

theorem stockUpdateRow_productID (pid : Nat) (qc : Int) (p : Product) :
    (stockUpdateRow pid qc p).productID = p.productID := by
  unfold stockUpdateRow
  split <;> rfl

theorem find?_map_stockUpdateRow (pid : Nat) (qc : Int) (l : List Product) :
    (l.map (stockUpdateRow pid qc)).find? (fun p => p.productID == pid)
      = (l.find? (fun p => p.productID == pid)).map (stockUpdateRow pid qc) := by
  induction l with
  | nil => rfl
  | cons a as ih =>
    simp only [List.map_cons, List.find?]
    have hg : ((stockUpdateRow pid qc a).productID == pid) = (a.productID == pid) := by
      rw [stockUpdateRow_productID]
    rw [hg]
    cases hb : (a.productID == pid) with
    | true => rfl
    | false => exact ih

theorem rowcount_ne_zero_of_getStock (pid : Nat) (st : Int) (l : List Product)
    (h : getStock pid l = some st) :
    (l.filter (fun p => p.productID == pid)).length ≠ 0 := by
  unfold getStock at h
  cases hf : l.find? (fun p => p.productID == pid) with
  | none => rw [hf] at h; simp at h
  | some a =>
    have hmem := List.mem_of_find?_eq_some hf
    have hpa := List.find?_some hf
    have hin : a ∈ l.filter (fun p => p.productID == pid) :=
      List.mem_filter.mpr ⟨hmem, hpa⟩
    intro hlen
    rw [List.length_eq_zero] at hlen
    rw [hlen] at hin
    exact absurd hin (List.not_mem_nil a)

theorem getStock_map_stockUpdateRow (pid : Nat) (qc st : Int) (l : List Product)
    (h : getStock pid l = some st) :
    getStock pid (l.map (stockUpdateRow pid qc)) = some (st + qc) := by
  unfold getStock at h ⊢
  rw [find?_map_stockUpdateRow]
  cases hf : l.find? (fun p => p.productID == pid) with
  | none => rw [hf] at h; simp at h
  | some a =>
    rw [hf] at h
    have hst : a.stock = st := by simpa using h
    have hpa := List.find?_some hf
    simp only [] at hpa
    simp [stockUpdateRow, hpa, hst]

/-- C2: on a product that exists (stock `st` observable through
`getStock`), a stock adjustment with no forced failure commits: the
result is exactly the store with the delta applied to the stock column
of the matching product rows and one audit row appended, status 200;
the adjusted product's stock reads `st + qc`, and the single appended
audit row records the delta, the acting employee, the change type
"Adjustment" and the date. -/
theorem update_stock_success_effect :
    ∀ (pid : Nat) (qc st : Int) (emp : Employee) (today : Nat) (s : Store),
      getStock pid s.products = some st →
      update_stock pid qc emp today false s
        = ({ s with
              products := s.products.map (stockUpdateRow pid qc),
              inventoryLog := s.inventoryLog ++
                [mkAdjustmentEntry s.nextLogID pid emp.employeeID qc today],
              nextLogID := s.nextLogID + 1 }, 200)
      ∧ getStock pid (update_stock pid qc emp today false s).1.products
          = some (st + qc)
      ∧ (mkAdjustmentEntry s.nextLogID pid emp.employeeID qc today).quantityChange = qc
      ∧ (mkAdjustmentEntry s.nextLogID pid emp.employeeID qc today).employeeID
          = emp.employeeID
      ∧ (mkAdjustmentEntry s.nextLogID pid emp.employeeID qc today).changeType
          = "Adjustment"
      ∧ (mkAdjustmentEntry s.nextLogID pid emp.employeeID qc today).changeDate
          = today := by
  intro pid qc st emp today s h
  have hrc := rowcount_ne_zero_of_getStock pid st s.products h
  have heq : update_stock pid qc emp today false s
      = ({ s with
            products := s.products.map (stockUpdateRow pid qc),
            inventoryLog := s.inventoryLog ++
              [mkAdjustmentEntry s.nextLogID pid emp.employeeID qc today],
            nextLogID := s.nextLogID + 1 }, 200) := by
    simp [update_stock, update_stock_attempt, hrc]
  refine ⟨heq, ?_, rfl, rfl, rfl, rfl⟩
  rw [heq]
  exact getStock_map_stockUpdateRow pid qc st s.products h

/-- C2 witness: adjusting product 1 of the concrete store (stock 50) by
-5 commits and leaves stock 45 with status 200. -/
theorem update_stock_success_effect_witness :
    getStock 1 (update_stock 1 (-5) sampleEmployee 0 false baseStore).1.products
        = some 45
    ∧ (update_stock 1 (-5) sampleEmployee 0 false baseStore).2 = 200 := by
  have h := update_stock_success_effect 1 (-5) 50 sampleEmployee 0 baseStore (by decide)
  exact ⟨by simpa using h.2.1, by rw [h.1]⟩

/-- C3: at the failing input — product id 99, which is absent from the
concrete store — the operation does leave the store unchanged, but it
answers HTTP 500: the `HTTPException(404)` raised inside the `try`
block is swallowed by `except Exception` and re-raised as a server
error, so the not-found condition is NOT reported as a client error. -/
theorem update_stock_missing_product_returns_500 :
    update_stock 99 1 sampleEmployee 0 false baseStore = (baseStore, 500)
    ∧ isClientError 500 = false := by decide

/-- C10: the stock-adjustment operation enforces no lower bound: on the
concrete store whose product 1 has stock 5, a delta of -10 commits
(status 200) and leaves stock -5, a value the pydantic `Product` model
(`Stock >= 0`) rejects, so neither `create_product` nor `update_product`
would accept such a row (both answer 422). -/
theorem update_stock_no_lower_bound :
    (update_stock 1 (-10) sampleEmployee 0 false lowStockStore).2 = 200
    ∧ getStock 1 (update_stock 1 (-10) sampleEmployee 0 false lowStockStore).1.products
        = some (-5)
    ∧ productModelValid { lowStockProduct with stock := -5 } = false
    ∧ create_product { lowStockProduct with stock := -5 } lowStockStore
        = (lowStockStore, 422)
    ∧ update_product 1 { lowStockProduct with stock := -5 } lowStockStore
        = (lowStockStore, 422) := by decide

theorem find?_email_of_pairwise (u : String) (e : Employee) :
    ∀ (l : List Employee), l.Pairwise (fun a b => a.email ≠ b.email) →
      e ∈ l → e.email = u →
      l.find? (fun x => x.email == u) = some e := by
  intro l
  induction l with
  | nil => intro _ hmem _; exact absurd hmem (List.not_mem_nil e)
  | cons a as ih =>
    intro hpw hmem heq
    rcases List.mem_cons.mp hmem with hea | hmem'
    · subst hea
      simp only [List.find?]
      rw [show (e.email == u) = true by simp [heq]]
    · have hane : a.email ≠ u := by
        intro hau
        exact ((List.pairwise_cons.mp hpw).1 e hmem') (hau.trans heq.symm)
      simp only [List.find?]
      rw [show (a.email == u) = false by simp [hane]]
      exact ih (List.pairwise_cons.mp hpw).2 hmem' heq

/-- C7: the credential check succeeds with employee `e` exactly when an
employee row with the supplied username as its email exists and stores
the supplied password (emails are pairwise distinct, as the UNIQUE
column constraint guarantees); any rejection carries status 401; and
the `Depends(authenticate)` wiring makes a rejected request leave the
store untouched and return 401 before the handler body runs. -/
theorem authenticate_credentials_iff :
    (∀ (u pw : String) (s : Store) (e : Employee),
        authenticate u pw s = .ok e →
        e ∈ s.employees ∧ e.email = u ∧ e.password = pw)
    ∧ (∀ (u pw : String) (s : Store) (e : Employee),
        s.employees.Pairwise (fun a b => a.email ≠ b.email) →
        e ∈ s.employees → e.email = u → e.password = pw →
        authenticate u pw s = .ok e)
    ∧ (∀ (u pw : String) (s : Store) (c : Nat),
        authenticate u pw s = .error c → c = 401)
    ∧ (∀ (u pw : String) (s : Store) (cust : Customer) (c : Nat),
        authenticate u pw s = .error c →
        route_create_customer u pw cust s = (s, c))
    ∧ (∀ (u pw : String) (s : Store) (pid : Nat) (qc : Int) (today : Nat)
        (ff : Bool) (c : Nat),
        authenticate u pw s = .error c →
        route_update_stock u pw pid qc today ff s = (s, c)) := by
  refine ⟨?_, ?_, ?_, ?_, ?_⟩
  · intro u pw s e h
    unfold authenticate at h
    cases hf : s.employees.find? (fun x => x.email == u) with
    | none => rw [hf] at h; simp at h
    | some a =>
      rw [hf] at h
      by_cases hp : (a.password == pw) = true
      · simp only [hp, if_true] at h
        have hae : a = e := by simpa using h
        subst hae
        refine ⟨List.mem_of_find?_eq_some hf, ?_, by simpa using hp⟩
        have := List.find?_some hf
        simpa using this
      · simp [hp] at h
  · intro u pw s e hpw hmem heq heqp
    unfold authenticate
    rw [find?_email_of_pairwise u e s.employees hpw hmem heq]
    simp [heqp]
  · intro u pw s c h
    unfold authenticate at h
    cases hf : s.employees.find? (fun x => x.email == u) with
    | none =>
      rw [hf] at h
      simp at h
      omega
    | some a =>
      rw [hf] at h
      by_cases hp : (a.password == pw) = true
      · simp [hp] at h
      · simp [hp] at h
        omega
  · intro u pw s cust c h
    simp [route_create_customer, h]
  · intro u pw s pid qc today ff c h
    simp [route_update_stock, h]

/-- C7 witness: the default admin credentials authenticate against the
concrete store, and a wrong password is turned away with 401 before
either modelled handler touches the store. -/
theorem authenticate_credentials_iff_witness :
    authenticate "admin@example.com" "adminpassword" baseStore
        = Except.ok sampleEmployee
    ∧ route_create_customer "admin@example.com" "wrong" dupCustomer baseStore
        = (baseStore, 401)
    ∧ route_update_stock "nobody@example.com" "x" 1 1 0 false baseStore
        = (baseStore, 401) :=
  ⟨authenticate_credentials_iff.2.1 "admin@example.com" "adminpassword"
      baseStore sampleEmployee (by simp [baseStore]) (by simp [baseStore]) rfl rfl,
   authenticate_credentials_iff.2.2.2.1 "admin@example.com" "wrong"
      baseStore dupCustomer 401 (by rfl),
   authenticate_credentials_iff.2.2.2.2 "nobody@example.com" "x"
      baseStore 1 1 0 false 401 (by rfl)⟩

end Clothing
